import Mathlib

/-!
Verification development for the pr-review-ai coordination core.

This file shallowly embeds the parts of the repository that the
specification's testable properties talk about:

- backend/models/schemas.py      : Severity, AgentType, AnalysisStatus,
                                   Finding, AgentResult, AnalysisResult
- backend/agents/base_agent.py   : BaseAgent.parse_response (default
                                   normalization) and BaseAgent.analyze
                                   (the worker runner)
- backend/agents/orchestrator.py : the aggregate node and the dispatch
                                   order of the fan-out
- backend/services/analysis_service.py : AnalysisService.analyze_diff
                                   (the Phase-1 sequential path)
- backend/api/websocket.py       : the resource lifecycle of the
                                   OllamaClient handle in handle_analysis

Python floats are modelled as rationals; round(x, 2) is modelled as exact
half-even rounding to two decimals.  Wall-clock readings are abstract
rational timestamps threaded as parameters.  JSON values returned by the
inference backend are an inductive Json type.
-/

-- ============================================================
-- Data model (backend/models/schemas.py)
-- ============================================================

/-- Severity enum from schemas.py (string enum low/medium/high/critical). -/
inductive Severity where
  | low
  | medium
  | high
  | critical
deriving DecidableEq

/-- AgentType enum from schemas.py. -/
inductive AgentType where
  | security
  | performance
  | testing
  | documentation
  | standards
deriving DecidableEq

/-- AnalysisStatus enum from schemas.py. -/
inductive AnalysisStatus where
  | pending
  | in_progress
  | completed
  | failed
deriving DecidableEq

/-- Finding from schemas.py.  confidence is a Python float, modelled as a
rational; the pydantic constraints (ge 0, le 1) are enforced by
buildFinding below, exactly as pydantic validation enforces them at
construction time. -/
structure Finding where
  agent : AgentType
  severity : Severity
  title : String
  description : String
  file_path : Option String
  line_number : Option Int
  suggestion : Option String
  confidence : ℚ
deriving DecidableEq

/-- AgentResult from schemas.py. -/
structure AgentResult where
  agent : AgentType
  status : AnalysisStatus
  findings : List Finding
  execution_time : ℚ
  model_used : String
  error : Option String
deriving DecidableEq

/-- AnalysisResult from schemas.py, restricted to the fields the
specification's invariants mention.  The id (a random uuid fragment),
pr_data and created_at metadata fields are omitted: no claim depends on
them. -/
structure AnalysisResult where
  agent_results : List AgentResult
  total_findings : Nat
  critical_count : Nat
  high_count : Nat
  medium_count : Nat
  low_count : Nat
  total_execution_time : ℚ
  status : AnalysisStatus
deriving DecidableEq

-- ============================================================
-- JSON values (what json.loads produces from the model output)
-- ============================================================

/-- A parsed JSON value, as produced by json.loads in generate_json. -/
inductive Json where
  | null
  | bool (b : Bool)
  | num (q : ℚ)
  | str (s : String)
  | arr (items : List Json)
  | obj (kvs : List (String × Json))

/-- Python dict.get(key): the value if the key is present (even a null
value), otherwise absent (Python None). -/
def jlookup (k : String) (kvs : List (String × Json)) : Option Json :=
  (kvs.find? (fun p => p.1 == k)).map (fun p => p.2)

/-- Python truthiness of a JSON value (used by the x or y field fallbacks
in parse_response). -/
def truthy : Json → Bool
  | .null => false
  | .bool b => b
  | .num q => decide (q ≠ 0)
  | .str s => !s.isEmpty
  | .arr items => !items.isEmpty
  | .obj kvs => !kvs.isEmpty

/-- item.get(k1) or item.get(k2): the first value if present and truthy,
otherwise the second lookup (which may itself be absent). -/
def pyGetOr (kvs : List (String × Json)) (k1 k2 : String) : Option Json :=
  match jlookup k1 kvs with
  | some v => if truthy v then some v else jlookup k2 kvs
  | none => jlookup k2 kvs

/-- Python str() of a JSON scalar, used when joining list-valued
suggestion/description fragments.  Exact for strings, booleans and null;
numbers are rendered canonically (no claim depends on Python float
formatting); nested containers are rendered as an opaque marker (no claim
exercises nested fragments). -/
def pyStr : Json → String
  | .str s => s
  | .null => "None"
  | .bool true => "True"
  | .bool false => "False"
  | .num q => toString q
  | .arr _ => "[...]"
  | .obj _ => "{...}"

/-- Is this JSON value a list?  (isinstance(x, list)) -/
def Json.isArr : Json → Bool
  | .arr _ => true
  | _ => false

/-- Is this JSON value a record/object?  (isinstance(x, dict)) -/
def Json.isObj : Json → Bool
  | .obj _ => true
  | _ => false

-- ============================================================
-- Small Python helpers (str.lower, str.strip, float(), int())
-- ============================================================

/-- Python str.isspace characters (space, tab, newline, carriage return,
vertical tab, form feed). -/
def pyIsSpace (c : Char) : Bool :=
  c == ' ' || c == '\t' || c == '\n' || c == '\r' || c == '\x0b' || c == '\x0c'

/-- str.lower() (ASCII; the severity labels the code compares against are
ASCII). -/
def pyLower (s : String) : String := String.mk (s.data.map Char.toLower)

/-- str.strip(): remove leading and trailing whitespace. -/
def pyStrip (s : String) : String :=
  String.mk (((s.data.dropWhile pyIsSpace).reverse.dropWhile pyIsSpace).reverse)

/-- Digits of a nonempty all-digit character list, as a Nat. -/
def natOfDigits? (cs : List Char) : Option Nat :=
  if cs.isEmpty then none
  else if cs.all Char.isDigit then
    some (cs.foldl (fun a c => a * 10 + (c.toNat - 48)) 0)
  else none

/-- Python float(string) on simple decimal literals: optional surrounding
whitespace, optional sign, digits with an optional fractional part.
(Exponents, inf and nan are not modelled; no claim exercises them.) -/
def parseDecStr (s : String) : Option ℚ :=
  let t := s.trim
  let (sgn, body) :=
    if t.startsWith "-" then ((-1 : ℚ), t.drop 1)
    else if t.startsWith "+" then ((1 : ℚ), t.drop 1)
    else ((1 : ℚ), t)
  match body.splitOn "." with
  | [ip] => (natOfDigits? ip.toList).map (fun n => sgn * (n : ℚ))
  | [ip, fp] =>
    if ip.isEmpty && fp.isEmpty then none
    else
      let ipv := if ip.isEmpty then some 0 else natOfDigits? ip.toList
      let fpv := if fp.isEmpty then some 0 else natOfDigits? fp.toList
      match ipv, fpv with
      | some i, some f => some (sgn * ((i : ℚ) + (f : ℚ) / ((10 : ℚ) ^ fp.length)))
      | _, _ => none
  | _ => none

/-- Python int(string): optional sign and digits (pydantic integer
coercion from strings). -/
def parseIntStr (s : String) : Option Int :=
  let t := s.trim
  if t.startsWith "-" then (natOfDigits? (t.drop 1).toList).map (fun n => -(n : Int))
  else if t.startsWith "+" then (natOfDigits? (t.drop 1).toList).map (fun n => (n : Int))
  else (natOfDigits? t.toList).map (fun n => (n : Int))

/-- Python float(value) on a JSON value: numbers pass through, booleans
become 1/0, numeric strings are parsed, anything else raises (TypeError /
ValueError), which the per-element handler turns into a skip. -/
def pyFloat : Json → Except Unit ℚ
  | .num q => .ok q
  | .bool b => .ok (if b then 1 else 0)
  | .str s =>
    match parseDecStr s with
    | some q => .ok q
    | none => .error ()
  | _ => .error ()

-- ============================================================
-- round(x, 2): Python rounds half to even
-- ============================================================

/-- Round a rational to the nearest integer, ties to even (Python round). -/
def roundHalfEven (q : ℚ) : ℤ :=
  let f := ⌊q⌋
  let r := q - (f : ℚ)
  if r < 1/2 then f
  else if 1/2 < r then f + 1
  else if 2 ∣ f then f else f + 1

/-- round(x, 2): round to two decimal places, half to even.  (The binary
floating-point representation is abstracted away; values are exact
rationals.) -/
def pyRound2 (q : ℚ) : ℚ := ((roundHalfEven (q * 100) : ℤ) : ℚ) / 100

-- ============================================================
-- BaseAgent.parse_response (base_agent.py lines 101-171)
-- ============================================================

/-- Severity(severity_str): the exact string-enum constructor.  Succeeds
only on the exact lowercase member values, otherwise raises ValueError
(modelled as none). -/
def severityFromStr (t : String) : Option Severity :=
  if t = "low" then some .low
  else if t = "medium" then some .medium
  else if t = "high" then some .high
  else if t = "critical" then some .critical
  else none

/-- The severity_map fallback used when the enum constructor raises:
critical/high/medium/low map to themselves, info maps to low, and
severity_map.get(_, Severity.MEDIUM) defaults everything else to medium. -/
def severityMapLookup (t : String) : Severity :=
  if t = "critical" then .critical
  else if t = "high" then .high
  else if t = "medium" then .medium
  else if t = "low" then .low
  else if t = "info" then .low
  else .medium

/-- Severity normalization for an element: lower-case and strip the raw
string, try the enum constructor, fall back to the severity_map. -/
def normalizeSeverity (s : String) : Severity :=
  let t := pyStrip (pyLower s)
  (severityFromStr t).getD (severityMapLookup t)

/-- item.get("severity", "medium").lower().strip(): the default is the
string "medium"; a present non-string value raises AttributeError on
.lower(), which the per-element handler turns into a skip. -/
def severityStrOf (kvs : List (String × Json)) : Except Unit String :=
  match jlookup "severity" kvs with
  | none => .ok "medium"
  | some (.str s) => .ok s
  | some _ => .error ()

/-- pydantic validation of an Optional[str] field (suggestion,
file_path): absent and null become None, strings pass, anything else is a
ValidationError. -/
def optStrField : Option Json → Except Unit (Option String)
  | none => .ok none
  | some .null => .ok none
  | some (.str s) => .ok (some s)
  | some _ => .error ()

/-- pydantic validation of a required str field (title, description). -/
def strField : Json → Except Unit String
  | .str s => .ok s
  | _ => .error ()

/-- pydantic validation of an Optional[int] field (line_number): absent
and null become None, integral numbers and integer strings coerce,
anything else is a ValidationError. -/
def optIntField : Option Json → Except Unit (Option Int)
  | none => .ok none
  | some .null => .ok none
  | some (.num q) => if q.den = 1 then .ok (some q.num) else .error ()
  | some (.str s) =>
    match parseIntStr s with
    | some n => .ok (some n)
    | none => .error ()
  | some _ => .error ()

/-- Flatten a possibly-list-valued fragment field with the given joiner
("; " for suggestion, " " for description). -/
def flattenFragments (joiner : String) : Option Json → Option Json
  | some (.arr items) => some (.str (String.intercalate joiner (items.map pyStr)))
  | other => other

/-- The body of the per-element try block in parse_response: build one
Finding from a JSON object.  Any failure (AttributeError on a non-string
severity, float() on a bad confidence, pydantic validation of any field)
is an error, which the loop turns into a skip. -/
def buildFinding (agentT : AgentType) (kvs : List (String × Json)) :
    Except Unit Finding :=
  match severityStrOf kvs with
  | .error e => .error e
  | .ok sevRaw =>
    let sev := normalizeSeverity sevRaw
    let sugJ := flattenFragments "; " (pyGetOr kvs "suggestion" "fix")
    let descJ :=
      match jlookup "description" kvs with
      | some d => d
      | none => .str "No description provided"
    let descJ2 :=
      match descJ with
      | .arr items => Json.str (String.intercalate " " (items.map pyStr))
      | d => d
    match strField (match jlookup "title" kvs with
        | some t => t
        | none => .str "Untitled Finding") with
    | .error e => .error e
    | .ok title =>
      match strField descJ2 with
      | .error e => .error e
      | .ok desc =>
        match optStrField (pyGetOr kvs "file_path" "file") with
        | .error e => .error e
        | .ok fp =>
          match optIntField (pyGetOr kvs "line_number" "line") with
          | .error e => .error e
          | .ok ln =>
            match optStrField sugJ with
            | .error e => .error e
            | .ok sug =>
              match (match jlookup "confidence" kvs with
                | none => Except.ok ((8 : ℚ) / 10)
                | some v => pyFloat v) with
              | .error e => .error e
              | .ok conf =>
                -- pydantic Field(ge=0.0, le=1.0): an out-of-range
                -- confidence is a ValidationError (the element is
                -- skipped), not a clamp
                if 0 ≤ conf ∧ conf ≤ 1 then
                  .ok { agent := agentT, severity := sev, title := title,
                        description := desc, file_path := fp,
                        line_number := ln, suggestion := sug,
                        confidence := conf }
                else
                  .error ()

/-- One iteration of the parse_response loop: non-dict elements are
skipped (continue before the try block), and any exception inside the try
block is caught and skips the element. -/
def parseElement (agentT : AgentType) (item : Json) : Option Finding :=
  match item with
  | .obj kvs =>
    match buildFinding agentT kvs with
    | .ok f => some f
    | .error _ => none
  | _ => none

/-- The raw findings value: data.get("findings", data.get("issues", [])). -/
def rawFindingsOf (kvs : List (String × Json)) : Json :=
  match jlookup "findings" kvs with
  | some v => v
  | none =>
    match jlookup "issues" kvs with
    | some v => v
    | none => .arr []

/-- The loop of parse_response over the raw findings value: if it is not
a list, the accumulated findings stay empty (the early return); if it is
a list, each element is normalized or skipped independently. -/
def parseRawList (agentT : AgentType) : Json → List Finding
  | .arr items => items.filterMap (parseElement agentT)
  | _ => []

/-- BaseAgent.parse_response.  On a non-dict argument, data.get raises
AttributeError (caught by the caller, analyze).  On a dict, the raw
findings value is looked up and the element loop runs. -/
def parse_response (agentT : AgentType) (data : Json) :
    Except String (List Finding) :=
  match data with
  | .obj kvs => .ok (parseRawList agentT (rawFindingsOf kvs))
  | _ => .error "AttributeError: object has no attribute get"

-- ============================================================
-- BaseAgent.analyze (base_agent.py lines 173-232)
-- ============================================================

/-- BaseAgent.analyze.  The fallible steps are parameters: buildRes is
the outcome of build_prompt, gateway maps the prompt to the outcome of
generate_json (its data field).  tElapsed is the wall-clock difference
time.time() - start_time.  Every failure is caught and becomes a failed
AgentResult; the function is total, so no exception escapes. -/
def analyze (agentT : AgentType) (modelName : String)
    (buildRes : Except String String)
    (gateway : String → Except String Json)
    (tElapsed : ℚ) : AgentResult :=
  match buildRes with
  | .error e =>
    { agent := agentT, status := .failed, findings := [],
      execution_time := pyRound2 tElapsed, model_used := modelName,
      error := some e }
  | .ok prompt =>
    match gateway prompt with
    | .error e =>
      { agent := agentT, status := .failed, findings := [],
        execution_time := pyRound2 tElapsed, model_used := modelName,
        error := some e }
    | .ok data =>
      match parse_response agentT data with
      | .error e =>
        { agent := agentT, status := .failed, findings := [],
          execution_time := pyRound2 tElapsed, model_used := modelName,
          error := some e }
      | .ok findings =>
        { agent := agentT, status := .completed, findings := findings,
          execution_time := pyRound2 tElapsed, model_used := modelName,
          error := none }

-- ============================================================
-- Orchestrator aggregate node (orchestrator.py lines 232-266)
-- ============================================================

/-- Python max(iterable, default=d). -/
def pythonMax (l : List ℚ) (d : ℚ) : ℚ :=
  match l with
  | [] => d
  | x :: xs => xs.foldl max x

/-- PRReviewOrchestrator._aggregate_node: flatten all findings, count
them in total and per severity, take the maximum execution time (rounded
to two decimals), and mark the report completed. -/
def aggregateNode (agent_results : List AgentResult) : AnalysisResult :=
  let all_findings := (agent_results.map (fun ar => ar.findings)).flatten
  { agent_results := agent_results,
    total_findings := all_findings.length,
    critical_count := all_findings.countP (fun f => f.severity == Severity.critical),
    high_count := all_findings.countP (fun f => f.severity == Severity.high),
    medium_count := all_findings.countP (fun f => f.severity == Severity.medium),
    low_count := all_findings.countP (fun f => f.severity == Severity.low),
    total_execution_time :=
      pyRound2 (pythonMax (agent_results.map (fun ar => ar.execution_time)) 0),
    status := .completed }

-- ============================================================
-- Coordinator dispatch / fan-in ordering (orchestrator.py lines 124-230)
-- ============================================================

/-- The fixed worker registry of PRReviewOrchestrator.__init__ (a Python
dict, insertion-ordered): security, performance, testing, documentation,
standards. -/
def agentRegistry : List AgentType :=
  [.security, .performance, .testing, .documentation, .standards]

/-- _route_to_agents: one Send per registered agent, in registry
(dispatch) order, each carrying the same diff text. -/
def routeToAgents (diff : String) : List (AgentType × String) :=
  agentRegistry.map (fun a => (a, diff))

/-- Modelled from the spec: the fan-in step of the Coordinator.  The
LangGraph runtime that applies the agent_results updates is an external
library, so its combination semantics is modelled from the spec (sections
4.4 and 9): the accumulator is built by iterating the fixed
dispatch-order task list and taking each task's arrival, regardless of
the order in which arrivals were delivered.  completionArrivals is the
list of (agent, result) pairs in the order the workers finished. -/
def collectInDispatchOrder
    (completionArrivals : List (AgentType × AgentResult)) : List AgentResult :=
  agentRegistry.filterMap
    (fun a => (completionArrivals.find? (fun p => p.1 == a)).map (fun p => p.2))

/-- One full coordinator run, with the scheduling nondeterminism made
explicit: res gives each worker's (always-terminating) result on the
input, and completionOrder is the order in which the concurrently running
workers happened to finish. -/
def runCoordinator (res : AgentType → AgentResult)
    (completionOrder : List AgentType) : AnalysisResult :=
  aggregateNode (collectInDispatchOrder (completionOrder.map (fun a => (a, res a))))

-- ============================================================
-- AnalysisService.analyze_diff (analysis_service.py lines 61-140)
-- ============================================================

/-- AnalysisService.analyze_diff, with its wall-clock readings explicit:
t0 is the service's own start_time, t1 and t2 are the start and end
readings taken inside the security agent's analyze call, and t3 is the
service's final time.time() reading.  The service runs exactly one
worker (the security agent, Phase 1, sequentially) and sets
total_execution_time = round(t3 - t0, 2): the wall-clock duration of the
whole call, not the maximum of the worker execution times. -/
def analyze_diff (t0 t1 t2 t3 : ℚ)
    (buildRes : Except String String)
    (gateway : String → Except String Json) : AnalysisResult :=
  let security_result := analyze .security "qwen2.5-coder:7b" buildRes gateway (t2 - t1)
  let agent_results := [security_result]
  let all_findings := (agent_results.map (fun ar => ar.findings)).flatten
  { agent_results := agent_results,
    total_findings := all_findings.length,
    critical_count := all_findings.countP (fun f => f.severity == Severity.critical),
    high_count := all_findings.countP (fun f => f.severity == Severity.high),
    medium_count := all_findings.countP (fun f => f.severity == Severity.medium),
    low_count := all_findings.countP (fun f => f.severity == Severity.low),
    total_execution_time := pyRound2 (t3 - t0),
    status := .completed }

-- ============================================================
-- OllamaClient handle lifecycle in handle_analysis (websocket.py 98-235)
-- ============================================================

/-- Events on the OllamaClient connection handle: construction of the
httpx.AsyncClient (acquire), a successfully awaited operation between
construction and close (opOk), and client.aclose() (release). -/
inductive REvent where
  | acquire
  | opOk
  | release
deriving DecidableEq

/-- The handle-relevant trace of handle_analysis after the client is
constructed at line 151.  Each boolean stands for one awaited operation
between the construction and the final await client.close() at line 224
(the send_event calls of the progress stream and of the final result;
agent.analyze itself never raises).  true means the await returned
normally, false means it raised (for example WebSocketDisconnect).  The
whole body sits in a try whose except handlers (lines 226-235) do not
close the client, so the first raising await skips the release. -/
def postAcquireSteps : List Bool → List REvent
  | [] => [.release]
  | true :: rest => .opOk :: postAcquireSteps rest
  | false :: _ => []

/-- The full handle trace of one handle_analysis session that reaches the
client construction: acquire, then the awaited operations until the
first failure, then the release only if nothing raised. -/
def handleAnalysisTrace (sends : List Bool) : List REvent :=
  .acquire :: postAcquireSteps sends

-- ============================================================
-- A batch of workers over fixed gateway outcomes (for isolation)
-- ============================================================

/-- Run one WorkerRunner per gateway outcome: every worker has a
successful prompt build and sees its own fixed gateway outcome.  This is
the shape of a coordinator run against a mocked gateway. -/
def workerResults (a : AgentType) (m p : String) (t : ℚ)
    (os : List (Except String Json)) : List AgentResult :=
  os.map (fun o => analyze a m (.ok p) (fun _ => o) t)

-- ============================================================
-- Theorems
-- ============================================================

deriving instance DecidableEq for Except

section

attribute [local semireducible] Rat.mul Rat.inv Rat.add Rat.sub Rat.ofScientific

-- ---- helper lemmas (shared) ----

theorem foldl_max_mem (xs : List ℚ) (x : ℚ) : xs.foldl max x ∈ x :: xs := by
  induction xs generalizing x with
  | nil => simp
  | cons y ys ih =>
    have h := ih (max x y)
    rcases List.mem_cons.mp h with h1 | h1
    · rcases max_choice x y with hm | hm
      · exact List.mem_cons.mpr (Or.inl (by rw [List.foldl_cons, h1, hm]))
      · refine List.mem_cons.mpr (Or.inr ?_)
        exact List.mem_cons.mpr (Or.inl (by rw [List.foldl_cons, h1, hm]))
    · refine List.mem_cons.mpr (Or.inr ?_)
      exact List.mem_cons.mpr (Or.inr (by rw [List.foldl_cons]; exact h1))

theorem le_foldl_max (xs : List ℚ) (x : ℚ) :
    x ≤ xs.foldl max x ∧ ∀ y ∈ xs, y ≤ xs.foldl max x := by
  induction xs generalizing x with
  | nil => simp
  | cons z zs ih =>
    obtain ⟨h1, h2⟩ := ih (max x z)
    refine ⟨le_trans (le_max_left x z) h1, ?_⟩
    intro y hy
    rcases List.mem_cons.mp hy with rfl | hy2
    · exact le_trans (le_max_right x y) h1
    · exact h2 y hy2

theorem pythonMax_mem (l : List ℚ) (d : ℚ) (h : l ≠ []) : pythonMax l d ∈ l := by
  match l with
  | [] => exact absurd rfl h
  | x :: xs => exact foldl_max_mem xs x

theorem le_pythonMax (l : List ℚ) (d : ℚ) : ∀ y ∈ l, y ≤ pythonMax l d := by
  match l with
  | [] => simp
  | x :: xs =>
    intro y hy
    rcases List.mem_cons.mp hy with rfl | hy2
    · exact (le_foldl_max xs y).1
    · exact (le_foldl_max xs x).2 y hy2

theorem roundHalfEven_intCast (n : ℤ) : roundHalfEven (n : ℚ) = n := by
  unfold roundHalfEven
  simp only [Int.floor_intCast, sub_self]
  norm_num

theorem pyRound2_div100 (n : ℤ) : pyRound2 ((n : ℚ) / 100) = (n : ℚ) / 100 := by
  unfold pyRound2
  have h : ((n : ℚ) / 100) * 100 = (n : ℚ) := by
    field_simp
  rw [h, roundHalfEven_intCast]

-- ---- C1 ----

/-- C1: for every report produced by the orchestrator's aggregate node,
total_findings is the sum over all agent results of the number of
findings in that result, and each of the four severity counters counts
the findings of that severity across all agent results. -/
theorem c1_aggregate_counts (rs : List AgentResult) :
    (aggregateNode rs).total_findings =
      (rs.map (fun r => r.findings.length)).sum ∧
    (aggregateNode rs).critical_count =
      (rs.map (fun r => r.findings.countP
        (fun f => f.severity == Severity.critical))).sum ∧
    (aggregateNode rs).high_count =
      (rs.map (fun r => r.findings.countP
        (fun f => f.severity == Severity.high))).sum ∧
    (aggregateNode rs).medium_count =
      (rs.map (fun r => r.findings.countP
        (fun f => f.severity == Severity.medium))).sum ∧
    (aggregateNode rs).low_count =
      (rs.map (fun r => r.findings.countP
        (fun f => f.severity == Severity.low))).sum := by
  refine ⟨?_, ?_, ?_, ?_, ?_⟩ <;>
    simp [aggregateNode, List.length_flatten, List.countP_flatten,
      List.map_map, Function.comp_def]

-- ---- C3 ----

/-- C3: the worker runner (BaseAgent.analyze) is total: every failure in
prompt building, the gateway call or normalization becomes a failed
AgentResult with empty findings and a non-null error, and every
AgentResult it returns satisfies status = failed iff (findings is empty
and error is non-null); completed results carry a null error. -/
theorem c3_analyze_failure_shape (a : AgentType) (m : String)
    (b : Except String String) (g : String → Except String Json) (t : ℚ) :
    ((analyze a m b g t).status = .failed ↔
      ((analyze a m b g t).findings = [] ∧ (analyze a m b g t).error ≠ none)) ∧
    ((analyze a m b g t).status = .completed → (analyze a m b g t).error = none) := by
  cases b with
  | error e => simp [analyze]
  | ok p =>
    cases hg : g p with
    | error e => simp [analyze, hg]
    | ok data =>
      cases hp : parse_response a data with
      | error e => simp [analyze, hg, hp]
      | ok fs => simp [analyze, hg, hp]

/-- Witness for c3_analyze_failure_shape at a concrete failing gateway. -/
theorem c3_analyze_failure_shape_witness :
    ((analyze .security "qwen2.5-coder:7b" (.ok "p")
        (fun _ => .error "ConnectionFailure") 1).status = .failed ↔
      ((analyze .security "qwen2.5-coder:7b" (.ok "p")
          (fun _ => .error "ConnectionFailure") 1).findings = [] ∧
        (analyze .security "qwen2.5-coder:7b" (.ok "p")
          (fun _ => .error "ConnectionFailure") 1).error ≠ none)) ∧
    ((analyze .security "qwen2.5-coder:7b" (.ok "p")
        (fun _ => .error "ConnectionFailure") 1).status = .completed →
      (analyze .security "qwen2.5-coder:7b" (.ok "p")
        (fun _ => .error "ConnectionFailure") 1).error = none) :=
  c3_analyze_failure_shape .security "qwen2.5-coder:7b" (.ok "p")
    (fun _ => .error "ConnectionFailure") 1

-- ---- C10 ----

/-- C10: if the value under the findings key (or the issues alias) is not
a list at all, parse_response returns the empty findings list without
raising, and the worker run completes with status completed, zero
findings and a null error. -/
theorem c10_nonlist_findings_value (a : AgentType) (m : String) (p : String)
    (t : ℚ) (kvs : List (String × Json))
    (h : (rawFindingsOf kvs).isArr = false) :
    parse_response a (.obj kvs) = .ok [] ∧
    (analyze a m (.ok p) (fun _ => .ok (.obj kvs)) t).status = .completed ∧
    (analyze a m (.ok p) (fun _ => .ok (.obj kvs)) t).findings = [] ∧
    (analyze a m (.ok p) (fun _ => .ok (.obj kvs)) t).error = none := by
  have hpr : parse_response a (.obj kvs) = .ok [] := by
    have h0 : parse_response a (.obj kvs) = .ok (parseRawList a (rawFindingsOf kvs)) := rfl
    cases hr : rawFindingsOf kvs with
    | arr items => rw [hr] at h; simp [Json.isArr] at h
    | null => rw [h0, hr]; rfl
    | bool b => rw [h0, hr]; rfl
    | num q => rw [h0, hr]; rfl
    | str s => rw [h0, hr]; rfl
    | obj o => rw [h0, hr]; rfl
  refine ⟨hpr, ?_, ?_, ?_⟩ <;> simp [analyze, hpr]

/-- Witness for c10_nonlist_findings_value: findings maps to a string. -/
theorem c10_nonlist_findings_value_witness :
    parse_response .security (.obj [("findings", .str "oops")]) = .ok [] ∧
    (analyze .security "m" (.ok "p")
      (fun _ => .ok (.obj [("findings", .str "oops")])) 1).status = .completed ∧
    (analyze .security "m" (.ok "p")
      (fun _ => .ok (.obj [("findings", .str "oops")])) 1).findings = [] ∧
    (analyze .security "m" (.ok "p")
      (fun _ => .ok (.obj [("findings", .str "oops")])) 1).error = none :=
  c10_nonlist_findings_value .security "m" "p" 1 [("findings", .str "oops")]
    (by decide)

-- ---- C2 ----

/-- C2 counterexample: the claim quantifies over any run with at least
one worker and also cites AnalysisService.analyze_diff, but analyze_diff
sets total_execution_time to the wall-clock duration of the whole call
(round(time.time() - start_time, 2)), not to the maximum of the worker
execution times.  With clock readings 0, 1, 2, 3 (service start, worker
start, worker end, service end) the single worker's execution_time is 1
while the report's total_execution_time is 3. -/
theorem c2_counterexample :
    (analyze_diff 0 1 2 3 (.ok "p")
      (fun _ => .ok (.obj []))).total_execution_time = 3 ∧
    (analyze_diff 0 1 2 3 (.ok "p")
      (fun _ => .ok (.obj []))).agent_results.map
        (fun r => r.execution_time) = [1] ∧
    pythonMax ((analyze_diff 0 1 2 3 (.ok "p")
      (fun _ => .ok (.obj []))).agent_results.map
        (fun r => r.execution_time)) 0 = 1 ∧
    ¬ ((3 : ℚ) = 1) := by
  refine ⟨?_, ?_, ?_, by norm_num⟩ <;> decide

/-- C2 (amended): in the orchestrator's aggregate node (and likewise the
websocket aggregation), for any run with at least one worker whose
execution times are two-decimal values (as BaseAgent.analyze always
produces), total_execution_time is the maximum of the worker execution
times: it is attained by some worker and bounds all of them.  The Phase-1
AnalysisService.analyze_diff path instead records the whole call's
wall-clock duration, which can exceed that maximum (see the
counterexample). -/
theorem c2_total_time_is_max (rs : List AgentResult) (hne : rs ≠ [])
    (hq : ∀ r ∈ rs, ∃ n : ℤ, r.execution_time = (n : ℚ) / 100) :
    ∃ r ∈ rs, (aggregateNode rs).total_execution_time = r.execution_time ∧
      ∀ s ∈ rs, s.execution_time ≤ (aggregateNode rs).total_execution_time := by
  have hlne : rs.map (fun r => r.execution_time) ≠ [] := by
    simpa using hne
  have hmem : pythonMax (rs.map (fun r => r.execution_time)) 0 ∈
      rs.map (fun r => r.execution_time) :=
    pythonMax_mem _ 0 hlne
  obtain ⟨r, hr, hre⟩ := List.mem_map.mp hmem
  obtain ⟨n, hn⟩ := hq r hr
  have htot : (aggregateNode rs).total_execution_time =
      pythonMax (rs.map (fun r => r.execution_time)) 0 := by
    show pyRound2 (pythonMax (rs.map (fun r => r.execution_time)) 0) =
      pythonMax (rs.map (fun r => r.execution_time)) 0
    rw [← hre, hn]
    exact pyRound2_div100 n
  refine ⟨r, hr, ?_, ?_⟩
  · rw [htot, hre]
  · intro s hs
    rw [htot]
    exact le_pythonMax _ 0 _ (List.mem_map_of_mem _ hs)

/-- Witness for c2_total_time_is_max on two concrete results. -/
theorem c2_total_time_is_max_witness :
    ∃ r ∈ ([{ agent := AgentType.security, status := AnalysisStatus.completed,
              findings := [], execution_time := (50 : ℚ) / 100,
              model_used := "m", error := none },
            { agent := AgentType.testing, status := AnalysisStatus.completed,
              findings := [], execution_time := (30 : ℚ) / 100,
              model_used := "m", error := none }] : List AgentResult),
      (aggregateNode
        [{ agent := AgentType.security, status := AnalysisStatus.completed,
           findings := [], execution_time := (50 : ℚ) / 100,
           model_used := "m", error := none },
         { agent := AgentType.testing, status := AnalysisStatus.completed,
           findings := [], execution_time := (30 : ℚ) / 100,
           model_used := "m", error := none }]).total_execution_time =
        r.execution_time ∧
      ∀ s ∈ ([{ agent := AgentType.security, status := AnalysisStatus.completed,
                findings := [], execution_time := (50 : ℚ) / 100,
                model_used := "m", error := none },
              { agent := AgentType.testing, status := AnalysisStatus.completed,
                findings := [], execution_time := (30 : ℚ) / 100,
                model_used := "m", error := none }] : List AgentResult),
        s.execution_time ≤
          (aggregateNode
            [{ agent := AgentType.security, status := AnalysisStatus.completed,
               findings := [], execution_time := (50 : ℚ) / 100,
               model_used := "m", error := none },
             { agent := AgentType.testing, status := AnalysisStatus.completed,
               findings := [], execution_time := (30 : ℚ) / 100,
               model_used := "m", error := none }]).total_execution_time := by
  refine c2_total_time_is_max _ (by decide) ?_
  intro r hr
  rcases List.mem_cons.mp hr with rfl | hr2
  · exact ⟨50, by norm_num⟩
  · rcases List.mem_cons.mp hr2 with rfl | hr3
    · exact ⟨30, by norm_num⟩
    · cases hr3


-- ---- C4 ----

theorem find?_pair_eq (res : AgentType → AgentResult) (c : List AgentType)
    (a : AgentType) (h : a ∈ c) :
    (c.map (fun b => (b, res b))).find? (fun p => p.1 == a) = some (a, res a) := by
  induction c with
  | nil => cases h
  | cons b bs ih =>
    by_cases hba : b = a
    · subst hba
      simp [List.find?]
    · have hfalse : ((b, res b).1 == a) = false := by
        simp [hba]
      rcases List.mem_cons.mp h with rfl | h2
      · exact absurd rfl hba
      · rw [List.map_cons, List.find?_cons_of_neg _ (by simp [hba])]
        exact ih h2

theorem filterMap_all_some {α β : Type} (l : List α) (f : α → Option β)
    (g : α → β) (h : ∀ a ∈ l, f a = some (g a)) : l.filterMap f = l.map g := by
  induction l with
  | nil => rfl
  | cons x xs ih =>
    have hx := h x (List.mem_cons.mpr (Or.inl rfl))
    have hxs := ih (fun a ha => h a (List.mem_cons.mpr (Or.inr ha)))
    simp [List.filterMap_cons, hx, hxs]

/-- C4: the sequence of worker results in the final report is in dispatch
order (the fixed registration order of the workers), independent of
completion order: two coordinator runs over the same per-worker results,
whose workers complete in different orders, produce identical result
sequences, namely the registry order. -/
theorem c4_dispatch_order_determinism (res : AgentType → AgentResult)
    (c1 c2 : List AgentType)
    (h1 : ∀ a ∈ agentRegistry, a ∈ c1) (h2 : ∀ a ∈ agentRegistry, a ∈ c2) :
    (runCoordinator res c1).agent_results = (runCoordinator res c2).agent_results ∧
    (runCoordinator res c1).agent_results = agentRegistry.map res := by
  have key : ∀ c : List AgentType, (∀ a ∈ agentRegistry, a ∈ c) →
      collectInDispatchOrder (c.map (fun a => (a, res a))) = agentRegistry.map res := by
    intro c hc
    unfold collectInDispatchOrder
    apply filterMap_all_some
    intro a ha
    rw [find?_pair_eq res c a (hc a ha)]
    rfl
  have e1 : (runCoordinator res c1).agent_results =
      collectInDispatchOrder (c1.map (fun a => (a, res a))) := rfl
  have e2 : (runCoordinator res c2).agent_results =
      collectInDispatchOrder (c2.map (fun a => (a, res a))) := rfl
  constructor
  · rw [e1, e2, key c1 h1, key c2 h2]
  · rw [e1, key c1 h1]

/-- Witness for c4_dispatch_order_determinism: the second run's workers
complete in reverse order, yet the result sequences agree. -/
theorem c4_dispatch_order_determinism_witness :
    (runCoordinator
        (fun a => { agent := a, status := AnalysisStatus.completed,
                    findings := [], execution_time := 0,
                    model_used := "m", error := none })
        agentRegistry).agent_results =
      (runCoordinator
        (fun a => { agent := a, status := AnalysisStatus.completed,
                    findings := [], execution_time := 0,
                    model_used := "m", error := none })
        [.standards, .documentation, .testing, .performance, .security]).agent_results ∧
    (runCoordinator
        (fun a => { agent := a, status := AnalysisStatus.completed,
                    findings := [], execution_time := 0,
                    model_used := "m", error := none })
        agentRegistry).agent_results =
      agentRegistry.map
        (fun a => { agent := a, status := AnalysisStatus.completed,
                    findings := [], execution_time := 0,
                    model_used := "m", error := none }) :=
  c4_dispatch_order_determinism _ agentRegistry
    [.standards, .documentation, .testing, .performance, .security]
    (by decide) (by decide)

-- ---- C5 ----

theorem analyze_ok_obj (a : AgentType) (m p : String) (t : ℚ)
    (kvs : List (String × Json)) :
    (analyze a m (.ok p) (fun _ => .ok (.obj kvs)) t).status = .completed ∧
    (analyze a m (.ok p) (fun _ => .ok (.obj kvs)) t).error = none := by
  constructor <;> rfl

theorem analyze_gateway_error (a : AgentType) (m p : String) (t : ℚ)
    (e : String) :
    analyze a m (.ok p) (fun _ => .error e) t =
      { agent := a, status := .failed, findings := [],
        execution_time := pyRound2 t, model_used := m, error := some e } := rfl

theorem workerResults_counts (a : AgentType) (m p : String) (t : ℚ)
    (os : List (Except String Json))
    (hok : ∀ j, Except.ok j ∈ os → ∃ kvs, j = Json.obj kvs) :
    (workerResults a m p t os).countP
        (fun r => r.status == AnalysisStatus.completed) =
      os.countP (fun o => o.isOk) ∧
    (workerResults a m p t os).countP
        (fun r => r.status == AnalysisStatus.failed) =
      os.countP (fun o => !o.isOk) := by
  induction os with
  | nil => constructor <;> rfl
  | cons o os ih =>
    have hok2 : ∀ j, Except.ok j ∈ os → ∃ kvs, j = Json.obj kvs :=
      fun j hj => hok j (List.mem_cons.mpr (Or.inr hj))
    obtain ⟨ha, hb⟩ := ih hok2
    have hws : workerResults a m p t (o :: os) =
        analyze a m (.ok p) (fun _ => o) t :: workerResults a m p t os := rfl
    cases o with
    | error e =>
      have hxc : ((analyze a m (.ok p) (fun _ => .error e) t).status ==
          AnalysisStatus.completed) = false := rfl
      have hxf : ((analyze a m (.ok p) (fun _ => .error e) t).status ==
          AnalysisStatus.failed) = true := rfl
      have hyo : (Except.error e : Except String Json).isOk = false := rfl
      constructor
      · rw [hws, List.countP_cons, hxc, List.countP_cons, hyo, ha]
      · rw [hws, List.countP_cons, hxf, List.countP_cons, hyo, hb]
        norm_num
    | ok j =>
      obtain ⟨kvs, rfl⟩ := hok j (List.mem_cons.mpr (Or.inl rfl))
      have hxc : ((analyze a m (.ok p) (fun _ => .ok (.obj kvs)) t).status ==
          AnalysisStatus.completed) = true := rfl
      have hxf : ((analyze a m (.ok p) (fun _ => .ok (.obj kvs)) t).status ==
          AnalysisStatus.failed) = false := rfl
      have hyo : (Except.ok (Json.obj kvs) : Except String Json).isOk = true := rfl
      constructor
      · rw [hws, List.countP_cons, hxc, List.countP_cons, hyo, ha]
      · rw [hws, List.countP_cons, hxf, List.countP_cons, hyo, hb]
        norm_num

theorem countP_ok_add_not_ok (os : List (Except String Json)) :
    os.countP (fun o => o.isOk) + os.countP (fun o => !o.isOk) = os.length := by
  induction os with
  | nil => rfl
  | cons o os ih =>
    cases o with
    | error e =>
      have h1 : (Except.error e : Except String Json).isOk = false := rfl
      rw [List.countP_cons, List.countP_cons, h1, List.length_cons]
      simp only [Bool.not_false]
      norm_num
      omega
    | ok j =>
      have h1 : (Except.ok j : Except String Json).isOk = true := rfl
      rw [List.countP_cons, List.countP_cons, h1, List.length_cons]
      simp only [Bool.not_true]
      norm_num
      omega

/-- C5: if exactly one worker gateway call fails and the others return
JSON objects, the aggregate report still contains one result per worker:
all but one completed, exactly one failed carrying a non-null error, and
the report status is still completed. -/
theorem c5_single_failure_isolation (a : AgentType) (m p : String) (t : ℚ)
    (os : List (Except String Json))
    (herr : os.countP (fun o => !o.isOk) = 1)
    (hok : ∀ j, Except.ok j ∈ os → ∃ kvs, j = Json.obj kvs) :
    (workerResults a m p t os).length = os.length ∧
    (workerResults a m p t os).countP
        (fun r => r.status == AnalysisStatus.completed) = os.length - 1 ∧
    (workerResults a m p t os).countP
        (fun r => r.status == AnalysisStatus.failed) = 1 ∧
    (∀ r ∈ workerResults a m p t os, r.status = .failed → r.error ≠ none) ∧
    (aggregateNode (workerResults a m p t os)).status = .completed ∧
    (aggregateNode (workerResults a m p t os)).agent_results.length = os.length := by
  obtain ⟨hc, hf⟩ := workerResults_counts a m p t os hok
  have hlen : (workerResults a m p t os).length = os.length := by
    simp [workerResults]
  have htot := countP_ok_add_not_ok os
  refine ⟨hlen, ?_, ?_, ?_, rfl, hlen⟩
  · rw [hc]; omega
  · rw [hf, herr]
  · intro r hr hfail
    obtain ⟨o, ho, rfl⟩ := List.mem_map.mp hr
    cases o with
    | error e => simp [analyze_gateway_error]
    | ok j =>
      obtain ⟨kvs, rfl⟩ := hok j ho
      obtain ⟨hs, _⟩ := analyze_ok_obj a m p t kvs
      rw [hfail] at hs
      cases hs

/-- Witness for c5_single_failure_isolation: three workers, the middle
gateway call throws a connection failure. -/
theorem c5_single_failure_isolation_witness :
    (workerResults .security "m" "p" 1
        [.ok (.obj []), .error "ConnectionFailure", .ok (.obj [])]).length = 3 ∧
    (workerResults .security "m" "p" 1
        [.ok (.obj []), .error "ConnectionFailure", .ok (.obj [])]).countP
        (fun r => r.status == AnalysisStatus.completed) = 3 - 1 ∧
    (workerResults .security "m" "p" 1
        [.ok (.obj []), .error "ConnectionFailure", .ok (.obj [])]).countP
        (fun r => r.status == AnalysisStatus.failed) = 1 ∧
    (∀ r ∈ workerResults .security "m" "p" 1
        [.ok (.obj []), .error "ConnectionFailure", .ok (.obj [])],
      r.status = .failed → r.error ≠ none) ∧
    (aggregateNode (workerResults .security "m" "p" 1
        [.ok (.obj []), .error "ConnectionFailure", .ok (.obj [])])).status =
      .completed ∧
    (aggregateNode (workerResults .security "m" "p" 1
        [.ok (.obj []), .error "ConnectionFailure", .ok (.obj [])])).agent_results.length = 3 := by
  have h := c5_single_failure_isolation .security "m" "p" 1
    [.ok (.obj []), .error "ConnectionFailure", .ok (.obj [])]
    (by decide) ?_
  · exact h
  · intro j hj
    rcases List.mem_cons.mp hj with h1 | h2
    · exact ⟨[], (Except.ok.inj h1.symm).symm⟩
    · rcases List.mem_cons.mp h2 with h3 | h4
      · cases h3
      · rcases List.mem_cons.mp h4 with h5 | h6
        · exact ⟨[], (Except.ok.inj h5.symm).symm⟩
        · cases h6


-- ---- C6 ----

/-- C6: severity normalization lower-cases and strips the raw severity
string; the result depends only on that canonical form (so matching is
case- and whitespace-insensitive); exact matches against the four enum
values are used as-is; the near-miss label info maps to low; any
unrecognized value defaults to medium. -/
theorem c6_severity_normalization :
    (∀ s t : String, pyStrip (pyLower s) = pyStrip (pyLower t) →
      normalizeSeverity s = normalizeSeverity t) ∧
    normalizeSeverity "critical" = .critical ∧
    normalizeSeverity "high" = .high ∧
    normalizeSeverity "medium" = .medium ∧
    normalizeSeverity "low" = .low ∧
    normalizeSeverity "HIGH" = .high ∧
    normalizeSeverity "  CrItIcAl " = .critical ∧
    normalizeSeverity "info" = .low ∧
    (∀ s : String, pyStrip (pyLower s) ∉
        (["critical", "high", "medium", "low", "info"] : List String) →
      normalizeSeverity s = .medium) := by
  refine ⟨?_, by decide, by decide, by decide, by decide, by decide,
    by decide, by decide, ?_⟩
  · intro s t h
    simp only [normalizeSeverity]
    rw [h]
  · intro s h
    simp only [List.mem_cons, List.not_mem_nil, or_false, not_or] at h
    obtain ⟨h1, h2, h3, h4, h5⟩ := h
    have hs : severityFromStr (pyStrip (pyLower s)) = none := by
      unfold severityFromStr
      rw [if_neg h4, if_neg h3, if_neg h2, if_neg h1]
    have hm : severityMapLookup (pyStrip (pyLower s)) = .medium := by
      unfold severityMapLookup
      rw [if_neg h1, if_neg h2, if_neg h3, if_neg h4, if_neg h5]
    simp only [normalizeSeverity]
    rw [hs, hm]
    rfl

/-- Witness for c6_severity_normalization: insensitivity at HIGH/high,
fallback default at an unrecognized label. -/
theorem c6_severity_normalization_witness :
    normalizeSeverity "HIGH" = normalizeSeverity "high" ∧
    normalizeSeverity "weird" = .medium := by
  obtain ⟨hins, -, -, -, -, -, -, -, hdef⟩ := c6_severity_normalization
  exact ⟨hins "HIGH" "high" (by decide), hdef "weird" (by decide)⟩

-- ---- C7 ----

/-- Helper: parseElement on an object is the outcome of the try block. -/
theorem parseElement_obj (a : AgentType) (kvs : List (String × Json)) :
    parseElement a (.obj kvs) =
      (match buildFinding a kvs with
        | .ok f => some f
        | .error _ => none) := rfl

/-- Helper: on a dict whose findings value is this list, parse_response
runs the element loop. -/
theorem parse_response_arr (a : AgentType) (items : List Json)
    (kvs : List (String × Json)) (h : rawFindingsOf kvs = .arr items) :
    parse_response a (.obj kvs) = .ok (items.filterMap (parseElement a)) := by
  have h0 : parse_response a (.obj kvs) =
      .ok (parseRawList a (rawFindingsOf kvs)) := rfl
  rw [h0, h]
  rfl

/-- Helper: the spec example item with an explicit confidence value
evaluates to the pydantic range check on that value. -/
theorem buildFinding_conf_item (q : ℚ) :
    buildFinding .security
      [("title", Json.str "T"), ("severity", Json.str "medium"),
       ("description", Json.str "d"), ("confidence", Json.num q)] =
    (if 0 ≤ q ∧ q ≤ 1 then
      Except.ok { agent := .security, severity := .medium, title := "T",
                  description := "d", file_path := none, line_number := none,
                  suggestion := none, confidence := q }
    else Except.error ()) := rfl

/-- C7 counterexample: the claim says a supplied confidence is clamped to
the unit interval, but pydantic rejects the element instead: the element
with confidence 1.5 produces no Finding at all (it is skipped), rather
than a Finding with confidence 1. -/
theorem c7_counterexample :
    parse_response .security
      (.obj [("findings", .arr [.obj
        [("title", Json.str "T"), ("severity", Json.str "medium"),
         ("description", Json.str "d"), ("confidence", Json.num (15/10))]])]) =
      .ok [] ∧
    ¬ ((15 : ℚ) / 10 ≤ 1) := by
  constructor
  · decide
  · norm_num

/-- C7 (amended): a finding element with no confidence field yields a
Finding with confidence 0.8; a supplied confidence inside the unit
interval is used as-is; a supplied confidence outside the unit interval
is not clamped — the element fails pydantic validation and is skipped. -/
theorem c7_confidence_default_and_range :
    (parse_response .security
      (.obj [("findings", .arr [.obj
        [("title", Json.str "T"), ("severity", Json.str "medium"),
         ("description", Json.str "d")]])]) =
      .ok [{ agent := .security, severity := .medium, title := "T",
             description := "d", file_path := none, line_number := none,
             suggestion := none, confidence := (8 : ℚ) / 10 }]) ∧
    (∀ q : ℚ, 0 ≤ q → q ≤ 1 →
      parse_response .security
        (.obj [("findings", .arr [.obj
          [("title", Json.str "T"), ("severity", Json.str "medium"),
           ("description", Json.str "d"), ("confidence", Json.num q)]])]) =
        .ok [{ agent := .security, severity := .medium, title := "T",
               description := "d", file_path := none, line_number := none,
               suggestion := none, confidence := q }]) ∧
    (∀ q : ℚ, ¬ (0 ≤ q ∧ q ≤ 1) →
      parse_response .security
        (.obj [("findings", .arr [.obj
          [("title", Json.str "T"), ("severity", Json.str "medium"),
           ("description", Json.str "d"), ("confidence", Json.num q)]])]) =
        .ok []) := by
  refine ⟨by decide, ?_, ?_⟩
  · intro q h0 h1
    have hb := buildFinding_conf_item q
    rw [if_pos ⟨h0, h1⟩] at hb
    have hpe : parseElement .security (.obj
        [("title", Json.str "T"), ("severity", Json.str "medium"),
         ("description", Json.str "d"), ("confidence", Json.num q)]) =
        some { agent := .security, severity := .medium, title := "T",
               description := "d", file_path := none, line_number := none,
               suggestion := none, confidence := q } := by
      rw [parseElement_obj, hb]
    rw [parse_response_arr .security
      [.obj [("title", Json.str "T"), ("severity", Json.str "medium"),
             ("description", Json.str "d"), ("confidence", Json.num q)]]
      [("findings", Json.arr
        [.obj [("title", Json.str "T"), ("severity", Json.str "medium"),
               ("description", Json.str "d"), ("confidence", Json.num q)]])]
      rfl]
    rw [List.filterMap_cons, hpe]
    rfl
  · intro q h
    have hb := buildFinding_conf_item q
    rw [if_neg h] at hb
    have hpe : parseElement .security (.obj
        [("title", Json.str "T"), ("severity", Json.str "medium"),
         ("description", Json.str "d"), ("confidence", Json.num q)]) =
        none := by
      rw [parseElement_obj, hb]
    rw [parse_response_arr .security
      [.obj [("title", Json.str "T"), ("severity", Json.str "medium"),
             ("description", Json.str "d"), ("confidence", Json.num q)]]
      [("findings", Json.arr
        [.obj [("title", Json.str "T"), ("severity", Json.str "medium"),
               ("description", Json.str "d"), ("confidence", Json.num q)]])]
      rfl]
    rw [List.filterMap_cons, hpe]
    rfl

/-- Witness for c7_confidence_default_and_range at confidence one half
(in range, kept as-is) and three halves (out of range, skipped). -/
theorem c7_confidence_default_and_range_witness :
    (parse_response .security
      (.obj [("findings", .arr [.obj
        [("title", Json.str "T"), ("severity", Json.str "medium"),
         ("description", Json.str "d"), ("confidence", Json.num (1/2))]])]) =
      .ok [{ agent := .security, severity := .medium, title := "T",
             description := "d", file_path := none, line_number := none,
             suggestion := none, confidence := (1 : ℚ) / 2 }]) ∧
    (parse_response .security
      (.obj [("findings", .arr [.obj
        [("title", Json.str "T"), ("severity", Json.str "medium"),
         ("description", Json.str "d"), ("confidence", Json.num (3/2))]])]) =
      .ok []) := by
  obtain ⟨-, hin, hout⟩ := c7_confidence_default_and_range
  exact ⟨hin (1/2) (by norm_num) (by norm_num), hout (3/2) (by norm_num)⟩

-- ---- C8 ----

/-- C8: default normalization never aborts the whole run because of one
bad element: any non-record list element is skipped, on any dict input
parse_response returns a findings list (it cannot raise), and the spec
scenario with a string between two valid records yields exactly the two
valid Findings. -/
theorem c8_element_isolation :
    (∀ (a : AgentType) (j : Json), j.isObj = false → parseElement a j = none) ∧
    (∀ (a : AgentType) (kvs : List (String × Json)),
      ∃ fs, parse_response a (.obj kvs) = .ok fs) ∧
    parse_response .security
      (.obj [("findings", .arr
        [.obj [("title", Json.str "A"), ("severity", Json.str "medium"),
               ("description", Json.str "d")],
         .str "not-a-record",
         .obj [("title", Json.str "B"), ("severity", Json.str "low"),
               ("description", Json.str "e")]])]) =
      .ok [{ agent := .security, severity := .medium, title := "A",
             description := "d", file_path := none, line_number := none,
             suggestion := none, confidence := (8 : ℚ) / 10 },
           { agent := .security, severity := .low, title := "B",
             description := "e", file_path := none, line_number := none,
             suggestion := none, confidence := (8 : ℚ) / 10 }] := by
  refine ⟨?_, ?_, by decide⟩
  · intro a j h
    cases j with
    | obj kvs => simp [Json.isObj] at h
    | null => rfl
    | bool b => rfl
    | num q => rfl
    | str s => rfl
    | arr items => rfl
  · intro a kvs
    exact ⟨_, rfl⟩

/-- Witness for c8_element_isolation: a string element is skipped and a
dict input always yields a findings list. -/
theorem c8_element_isolation_witness :
    parseElement .security (.str "not-a-record") = none ∧
    ∃ fs, parse_response .security (.obj [("findings", .str "x")]) = .ok fs := by
  obtain ⟨hskip, htotal, -⟩ := c8_element_isolation
  exact ⟨hskip .security (.str "not-a-record") (by decide),
    htotal .security [("findings", .str "x")]⟩

-- ---- C9 ----

theorem postAcquireSteps_count_acquire (l : List Bool) :
    (postAcquireSteps l).count REvent.acquire = 0 := by
  induction l with
  | nil => rfl
  | cons b rest ih =>
    cases b with
    | false => rfl
    | true =>
      have h : postAcquireSteps (true :: rest) =
          REvent.opOk :: postAcquireSteps rest := rfl
      rw [h, List.count_cons, ih]
      rfl

theorem postAcquireSteps_count_release (l : List Bool) :
    (postAcquireSteps l).count REvent.release =
      if l.all (fun b => b) then 1 else 0 := by
  induction l with
  | nil => rfl
  | cons b rest ih =>
    cases b with
    | false => rfl
    | true =>
      have h : postAcquireSteps (true :: rest) =
          REvent.opOk :: postAcquireSteps rest := rfl
      have ha : (true :: rest).all (fun b => b) = rest.all (fun b => b) := by
        simp
      rw [h, List.count_cons, ih, ha]
      rfl

/-- C9 counterexample: the claim promises the gateway handle is released
exactly once on every exit path including failed runs, but in a session
where the first awaited operation after the client construction raises
(for example the WebSocket disconnects during a progress send), the
except handlers of handle_analysis do not close the client: the trace
contains the acquisition and no release. -/
theorem c9_counterexample :
    (handleAnalysisTrace [false]).count REvent.acquire = 1 ∧
    (handleAnalysisTrace [false]).count REvent.release = 0 := by
  constructor <;> rfl

/-- C9 (amended): each session acquires the handle once; it is released
exactly once when every awaited operation between acquisition and close
returns normally, and zero times as soon as any of them raises — release
is not guaranteed on failing exit paths. -/
theorem c9_release_only_on_success (sends : List Bool) :
    (handleAnalysisTrace sends).count REvent.acquire = 1 ∧
    (handleAnalysisTrace sends).count REvent.release =
      (if sends.all (fun b => b) then 1 else 0) := by
  constructor
  · have h : handleAnalysisTrace sends =
        REvent.acquire :: postAcquireSteps sends := rfl
    rw [h, List.count_cons, postAcquireSteps_count_acquire]
    rfl
  · have h : handleAnalysisTrace sends =
        REvent.acquire :: postAcquireSteps sends := rfl
    rw [h, List.count_cons, postAcquireSteps_count_release]
    rfl

end
